import Mathlib

/-!
Verification of the RTCDataChannel binding layer
(src/src/interfaces/rtc_data_channel.cc) of fanshao/node-webrtc.

The file shallowly embeds the binding's per-channel state and its
operations.  Machine integers are modelled as Nat/Int (no overflow is
exercised by the claims), buffers as lists of bytes (Nat), and the
fallible JavaScript boundary as explicit effect records.

Parts of the repository that the binding delegates to but whose code is
not under src/ (the native DataChannelInterface and the
AsyncObjectWrapWithLoop dispatch loop of src/node/) are modelled from
the specification; each such definition carries a doc comment starting
with "Modelled from the spec:".
-/

namespace NodeWebrtc

/-- The four states of webrtc::DataChannelInterface::DataState
(src/enums/webrtc/data_state.h, used throughout rtc_data_channel.cc). -/
inductive DataState
  | kConnecting
  | kOpen
  | kClosing
  | kClosed
deriving DecidableEq, Repr

/-- The slice of the native webrtc::DataChannelInterface the binding
reads: the attribute accessors id(), label(), protocol(), ordered(),
negotiated(), maxRetransmits(), maxRetransmitTime(), buffered_amount()
and state().  The binding holds it through _jingleDataChannel. -/
structure JingleDataChannel where
  id : Int
  label : String
  protocol : String
  ordered : Bool
  negotiated : Bool
  maxRetransmits : Nat
  maxRetransmitTime : Nat
  buffered_amount : Nat
  state : DataState
deriving DecidableEq, Repr

/-- A JavaScript value handed to an application callback by
HandleMessage: an ArrayBuffer of bytes, or a JS string (represented by
its UTF-8 bytes). -/
inductive NapiValue
  | arrayBuffer (bytes : List Nat)
  | jsString (bytes : List Nat)
deriving DecidableEq, Repr

/-- A callback delivered to the application: an onstatechange callback
carrying the state string (HandleStateChange, lines 135-148) or an
onmessage callback carrying the payload (HandleMessage, lines 156-175). -/
inductive Notification
  | stateChange (s : String)
  | message (v : NapiValue)
deriving DecidableEq, Repr

/-- The mutable state of an RTCDataChannel wrap object
(rtc_data_channel.cc / .h).  `jingle = none` models
_jingleDataChannel == nullptr (the transport binding released).
`stopped` models the AsyncObjectWrapWithLoop loop having been Stop()ed;
`delivered` is the sequence of callbacks already delivered to the
application's listeners, in delivery order. -/
structure RTCDataChannel where
  jingle : Option JingleDataChannel
  cached_id : Int
  cached_label : String
  cached_protocol : String
  cached_ordered : Bool
  cached_negotiated : Bool
  cached_max_retransmits : Nat
  cached_max_packet_life_time : Nat
  cached_buffered_amount : Nat
  stopped : Bool
  delivered : List Notification
deriving DecidableEq, Repr

/-- GetBufferedAmount (lines 236-242): live value while attached, cached
value after the binding is released. -/
def RTCDataChannel.GetBufferedAmount (c : RTCDataChannel) : Nat :=
  match c.jingle with
  | some j => j.buffered_amount
  | none => c.cached_buffered_amount

/-- GetId (lines 244-250). -/
def RTCDataChannel.GetId (c : RTCDataChannel) : Int :=
  match c.jingle with
  | some j => j.id
  | none => c.cached_id

/-- GetLabel (lines 252-258). -/
def RTCDataChannel.GetLabel (c : RTCDataChannel) : String :=
  match c.jingle with
  | some j => j.label
  | none => c.cached_label

/-- GetMaxPacketLifeTime (lines 260-266): reads maxRetransmitTime(). -/
def RTCDataChannel.GetMaxPacketLifeTime (c : RTCDataChannel) : Nat :=
  match c.jingle with
  | some j => j.maxRetransmitTime
  | none => c.cached_max_packet_life_time

/-- GetMaxRetransmits (lines 268-274). -/
def RTCDataChannel.GetMaxRetransmits (c : RTCDataChannel) : Nat :=
  match c.jingle with
  | some j => j.maxRetransmits
  | none => c.cached_max_retransmits

/-- GetNegotiated (lines 276-282). -/
def RTCDataChannel.GetNegotiated (c : RTCDataChannel) : Bool :=
  match c.jingle with
  | some j => j.negotiated
  | none => c.cached_negotiated

/-- GetOrdered (lines 284-290). -/
def RTCDataChannel.GetOrdered (c : RTCDataChannel) : Bool :=
  match c.jingle with
  | some j => j.ordered
  | none => c.cached_ordered

/-- GetPriority (lines 292-296): the constant string "high",
independent of the channel and of its state. -/
def RTCDataChannel.GetPriority (_c : RTCDataChannel) : String :=
  "high"

/-- GetProtocol (lines 298-304). -/
def RTCDataChannel.GetProtocol (c : RTCDataChannel) : String :=
  match c.jingle with
  | some j => j.protocol
  | none => c.cached_protocol

/-- GetReadyState (lines 306-312): kClosed once the binding is
released. -/
def RTCDataChannel.GetReadyState (c : RTCDataChannel) : DataState :=
  match c.jingle with
  | some j => j.state
  | none => DataState.kClosed

/-- CleanupInternals (lines 102-116): if the binding is already
released, do nothing; otherwise unregister the observer, snapshot every
cacheable attribute from the live channel, and only then release the
binding (_jingleDataChannel = nullptr). -/
def RTCDataChannel.CleanupInternals (c : RTCDataChannel) : RTCDataChannel :=
  match c.jingle with
  | none => c
  | some j =>
    { c with
      jingle := none
      cached_id := j.id
      cached_label := j.label
      cached_max_packet_life_time := j.maxRetransmitTime
      cached_max_retransmits := j.maxRetransmits
      cached_negotiated := j.negotiated
      cached_ordered := j.ordered
      cached_protocol := j.protocol
      cached_buffered_amount := j.buffered_amount }

/-- OnPeerConnectionClosed (lines 118-123): when the binding is still
attached, snapshot the attributes (CleanupInternals) and Stop() the
dispatch loop; otherwise do nothing. -/
def RTCDataChannel.OnPeerConnectionClosed (c : RTCDataChannel) : RTCDataChannel :=
  match c.jingle with
  | none => c
  | some _ => { c.CleanupInternals with stopped := true }

/-- The C-string read performed by Napi::String::New(env, message.get())
in HandleMessage (line 171): the message buffer is not NUL-terminated,
so the string constructor consumes bytes up to the first NUL byte.
(When the payload holds no NUL byte at all, the C++ code reads past the
heap allocation; the model then optimistically returns the whole
payload.) -/
def cStringOf (bytes : List Nat) : List Nat :=
  bytes.takeWhile (fun b => b ≠ 0)

/-- The JavaScript value HandleMessage (lines 156-175) builds from a
received webrtc::DataBuffer: binary payloads become an ArrayBuffer of
exactly `size` bytes; text payloads are passed through the C-string
constructor above. -/
def handleMessageValue (binary : Bool) (data : List Nat) : NapiValue :=
  if binary then NapiValue.arrayBuffer data
  else NapiValue.jsString (cStringOf data)

/-- HandleMessage as a channel transition: deliver one onmessage
callback carrying the constructed value (line 174). -/
def RTCDataChannel.HandleMessage (c : RTCDataChannel) (binary : Bool)
    (data : List Nat) : RTCDataChannel :=
  { c with delivered := c.delivered ++ [Notification.message (handleMessageValue binary data)] }

/-- HandleStateChange (lines 135-148): deliver an onstatechange
callback with "closed" for kClosed and "open" for kOpen (kConnecting
and kClosing produce no callback), then Stop() the loop when the state
is kClosed. -/
def RTCDataChannel.HandleStateChange (c : RTCDataChannel)
    (state : DataState) : RTCDataChannel :=
  let c1 :=
    if state = DataState.kClosed then
      { c with delivered := c.delivered ++ [Notification.stateChange "closed"] }
    else if state = DataState.kOpen then
      { c with delivered := c.delivered ++ [Notification.stateChange "open"] }
    else c
  if state = DataState.kClosed then { c1 with stopped := true } else c1

/-- Modelled from the spec: the dispatch loop of AsyncObjectWrapWithLoop
(src/node/, not under src/).  Per section 4.5 dispatched callbacks are
queued and drained in FIFO order by the consuming context, and Stop()
halts the loop, so a callback dispatched to a stopped channel is never
run. -/
def RTCDataChannel.Dispatch (c : RTCDataChannel)
    (f : RTCDataChannel → RTCDataChannel) : RTCDataChannel :=
  if c.stopped then c else f c

/-- OnStateChange (lines 125-133): read the live state, snapshot the
attributes (CleanupInternals) when it is kClosed, then dispatch
HandleStateChange with the captured state. -/
def RTCDataChannel.OnStateChange (c : RTCDataChannel) : RTCDataChannel :=
  match c.jingle with
  | none => c
  | some j =>
    let state := j.state
    let c1 := if state = DataState.kClosed then c.CleanupInternals else c
    c1.Dispatch (fun ch => ch.HandleStateChange state)

/-- The message of ErrorFactory::napi::CreateInvalidStateError at lines
182 and 222. -/
def invalidStateMsg : String := "RTCDataChannel.readyState is not \x27open\x27"

/-- The message of the TypeError thrown at line 210. -/
def typeErrorMsg : String := "Expected a Blob or ArrayBuffer"

/-- The JavaScript argument passed to send: a string (UTF-8 bytes), a
TypedArray or DataView (backing buffer plus byte offset and length), an
ArrayBuffer, or any other value. -/
inductive SendPayload
  | strVal (utf8 : List Nat)
  | typedArrayVal (buf : List Nat) (byteOffset byteLength : Nat)
  | dataViewVal (buf : List Nat) (byteOffset byteLength : Nat)
  | arrayBufferVal (buf : List Nat)
  | otherVal
deriving DecidableEq, Repr

/-- The byte slice `content + byte_offset .. byte_offset + byte_length`
built at line 215. -/
def viewBytes (buf : List Nat) (off len : Nat) : List Nat :=
  (buf.drop off).take len

/-- Everything observable about one call to Send: `threw` is the
JavaScript exception raised (via ThrowAsJavaScriptException), if any;
`errorsCreated` lists InvalidStateError objects that the code constructs
with ErrorFactory but never throws nor returns (the FIXME comments at
lines 181 and 221 - the caller still observes a plain undefined
return); `transportWrites` lists the (binary flag, bytes) DataBuffers
handed to _jingleDataChannel->Send; `channelAfter` is the binding state
after the call. -/
structure SendEffect where
  threw : Option String
  errorsCreated : List String
  transportWrites : List (Bool × List Nat)
  channelAfter : RTCDataChannel
deriving DecidableEq, Repr

/-- Send (lines 177-227).  `_writeOk` models the boolean result of the
underlying _jingleDataChannel->Send call; the C++ code discards it
(lines 190 and 218), so it influences nothing. -/
def RTCDataChannel.Send (c : RTCDataChannel) (payload : SendPayload)
    (_writeOk : Bool) : SendEffect :=
  match c.jingle with
  | some j =>
    if j.state ≠ DataState.kOpen then
      { threw := none, errorsCreated := [invalidStateMsg],
        transportWrites := [], channelAfter := c }
    else
      match payload with
      | SendPayload.strVal s =>
        { threw := none, errorsCreated := [],
          transportWrites := [(false, s)], channelAfter := c }
      | SendPayload.typedArrayVal buf off len =>
        { threw := none, errorsCreated := [],
          transportWrites := [(true, viewBytes buf off len)], channelAfter := c }
      | SendPayload.dataViewVal buf off len =>
        { threw := none, errorsCreated := [],
          transportWrites := [(true, viewBytes buf off len)], channelAfter := c }
      | SendPayload.arrayBufferVal buf =>
        { threw := none, errorsCreated := [],
          transportWrites := [(true, viewBytes buf 0 buf.length)], channelAfter := c }
      | SendPayload.otherVal =>
        { threw := some typeErrorMsg, errorsCreated := [],
          transportWrites := [], channelAfter := c }
  | none =>
    { threw := none, errorsCreated := [invalidStateMsg],
      transportWrites := [], channelAfter := c }

/-- Close (lines 229-234): a no-op once the binding is released;
otherwise it delegates to the underlying channel's Close().
Modelled from the spec: the underlying DataChannelInterface::Close
(native library, not under src/) is, per section 4.1, a no-op when the
channel is already Closing or Closed, and otherwise drives the state
through Closing to Closed, firing the registered observer's
OnStateChange at each transition. -/
def RTCDataChannel.Close (c : RTCDataChannel) : RTCDataChannel :=
  match c.jingle with
  | none => c
  | some j =>
    if j.state = DataState.kClosing ∨ j.state = DataState.kClosed then c
    else
      let c1 := { c with jingle := some { j with state := DataState.kClosing } }
      let c2 := c1.OnStateChange
      match c2.jingle with
      | none => c2
      | some j2 =>
        let c3 := { c2 with jingle := some { j2 with state := DataState.kClosed } }
        c3.OnStateChange

/-- n successive calls to Close on the same channel. -/
def closeN : Nat → RTCDataChannel → RTCDataChannel
  | 0, c => c
  | Nat.succ m, c => closeN m c.Close

/-- Number of onstatechange("closed") callbacks in a delivery log. -/
def countClosed (l : List Notification) : Nat :=
  l.countP (fun n => decide (n = Notification.stateChange "closed"))

/-- An event produced by the underlying channel towards its observer:
a state change (the state is captured at production time, line 126) or
an incoming message (OnMessage, lines 150-154). -/
inductive ChannelEvent
  | stateChange (s : DataState)
  | message (binary : Bool) (data : List Nat)
deriving DecidableEq, Repr

/-- Processing of one observer event by the binding: state changes go
through OnStateChange's body with the captured state (cleanup on
kClosed, then dispatch of HandleStateChange); messages dispatch
HandleMessage. -/
def processEvent (c : RTCDataChannel) (e : ChannelEvent) : RTCDataChannel :=
  match e with
  | ChannelEvent.stateChange s =>
    let c1 := if s = DataState.kClosed then c.CleanupInternals else c
    c1.Dispatch (fun ch => ch.HandleStateChange s)
  | ChannelEvent.message b d =>
    c.Dispatch (fun ch => ch.HandleMessage b d)

/-- Processing of a produced event sequence, in production order. -/
def processEvents (c : RTCDataChannel) (es : List ChannelEvent) : RTCDataChannel :=
  es.foldl processEvent c

/-- The delivery order required by the spec (section 4.5): one
notification per observable event, in production order, nothing after
the "closed" state change (kConnecting and kClosing state changes are
not observable, lines 138-144). -/
def fifoDelivery : List ChannelEvent → List Notification
  | [] => []
  | ChannelEvent.stateChange DataState.kClosed :: _ =>
    [Notification.stateChange "closed"]
  | ChannelEvent.stateChange DataState.kOpen :: es =>
    Notification.stateChange "open" :: fifoDelivery es
  | ChannelEvent.stateChange _ :: es => fifoDelivery es
  | ChannelEvent.message b d :: es =>
    Notification.message (handleMessageValue b d) :: fifoDelivery es

/-- An application- or engine-side operation on a channel, used to
quantify over everything that can happen to a channel after a point in
time. -/
inductive ChannelOp
  | closeOp
  | sendOp (p : SendPayload) (writeOk : Bool)
  | cleanupOp
  | peerClosedOp
  | eventOp (e : ChannelEvent)
deriving Repr

/-- Apply one operation to the channel state. -/
def applyOp (c : RTCDataChannel) : ChannelOp → RTCDataChannel
  | ChannelOp.closeOp => c.Close
  | ChannelOp.sendOp p w => (c.Send p w).channelAfter
  | ChannelOp.cleanupOp => c.CleanupInternals
  | ChannelOp.peerClosedOp => c.OnPeerConnectionClosed
  | ChannelOp.eventOp e => processEvent c e

/-- Apply a sequence of operations, oldest first. -/
def applyOps (c : RTCDataChannel) (ops : List ChannelOp) : RTCDataChannel :=
  ops.foldl applyOp c

/-- The channel has had its attributes snapshotted from `j` and its
binding released: exactly the state CleanupInternals leaves behind. -/
def cleanedWith (c : RTCDataChannel) (j : JingleDataChannel) : Prop :=
  c.jingle = none ∧ c.cached_id = j.id ∧ c.cached_label = j.label ∧
  c.cached_protocol = j.protocol ∧ c.cached_ordered = j.ordered ∧
  c.cached_negotiated = j.negotiated ∧
  c.cached_max_retransmits = j.maxRetransmits ∧
  c.cached_max_packet_life_time = j.maxRetransmitTime ∧
  c.cached_buffered_amount = j.buffered_amount

/-- A sample underlying channel in a given state, for concrete
witnesses. -/
def jSample (s : DataState) : JingleDataChannel :=
  { id := 1, label := "data", protocol := "sctp", ordered := true,
    negotiated := false, maxRetransmits := 3, maxRetransmitTime := 200,
    buffered_amount := 7, state := s }

/-- A freshly constructed binding attached to `jSample s`: the cached
fields start zeroed exactly as in the constructor (lines 87-92). -/
def cSample (s : DataState) : RTCDataChannel :=
  { jingle := some (jSample s), cached_id := 0, cached_label := "",
    cached_protocol := "", cached_ordered := false,
    cached_negotiated := false, cached_max_retransmits := 0,
    cached_max_packet_life_time := 0, cached_buffered_amount := 0,
    stopped := false, delivered := [] }

/-- A concrete operation sequence used to witness that snapshot reads
survive arbitrary later activity. -/
def opsW : List ChannelOp :=
  [ChannelOp.closeOp, ChannelOp.peerClosedOp,
   ChannelOp.sendOp SendPayload.otherVal true,
   ChannelOp.eventOp (ChannelEvent.message true [9]),
   ChannelOp.cleanupOp]

/-- A concrete produced-event sequence ending in a closed state
change, used to witness the delivery-order claim. -/
def esW : List ChannelEvent :=
  [ChannelEvent.stateChange DataState.kOpen,
   ChannelEvent.message true [1, 2],
   ChannelEvent.stateChange DataState.kClosed]

/-! ## Helper lemmas -/

/-- CleanupInternals releases the binding and touches only the cached
fields: the delivery log and the stopped flag are untouched. -/
theorem CleanupInternals_delivered_stopped (c : RTCDataChannel) :
    (c.CleanupInternals).delivered = c.delivered ∧
    (c.CleanupInternals).stopped = c.stopped := by
  unfold RTCDataChannel.CleanupInternals
  cases hj : c.jingle with
  | none => exact ⟨rfl, rfl⟩
  | some j => exact ⟨rfl, rfl⟩

/-- CleanupInternals is a no-op once the binding is released. -/
theorem CleanupInternals_of_released (c : RTCDataChannel)
    (h : c.jingle = none) : c.CleanupInternals = c := by
  unfold RTCDataChannel.CleanupInternals
  rw [h]

/-- CleanupInternals on an attached binding leaves the channel cleaned
with the live attribute values. -/
theorem CleanupInternals_cleaned (c : RTCDataChannel) (j : JingleDataChannel)
    (hj : c.jingle = some j) : cleanedWith c.CleanupInternals j := by
  unfold RTCDataChannel.CleanupInternals cleanedWith
  rw [hj]
  exact ⟨rfl, rfl, rfl, rfl, rfl, rfl, rfl, rfl, rfl⟩

/-- OnPeerConnectionClosed is a no-op once the binding is released. -/
theorem OnPeerConnectionClosed_of_released (c : RTCDataChannel)
    (h : c.jingle = none) : c.OnPeerConnectionClosed = c := by
  unfold RTCDataChannel.OnPeerConnectionClosed
  rw [h]

/-- OnPeerConnectionClosed on an attached binding leaves the channel
cleaned with the live attribute values. -/
theorem OnPeerConnectionClosed_cleaned (c : RTCDataChannel)
    (j : JingleDataChannel) (hj : c.jingle = some j) :
    cleanedWith c.OnPeerConnectionClosed j := by
  unfold RTCDataChannel.OnPeerConnectionClosed
  rw [hj]
  exact CleanupInternals_cleaned c j hj

/-- A dispatched callback is dropped once the loop is stopped. -/
theorem Dispatch_of_stopped (c : RTCDataChannel)
    (f : RTCDataChannel → RTCDataChannel) (h : c.stopped = true) :
    c.Dispatch f = c := by
  unfold RTCDataChannel.Dispatch
  rw [h]
  rfl

/-- A dispatched callback runs while the loop is running. -/
theorem Dispatch_of_running (c : RTCDataChannel)
    (f : RTCDataChannel → RTCDataChannel) (h : c.stopped = false) :
    c.Dispatch f = f c := by
  unfold RTCDataChannel.Dispatch
  rw [h]
  rfl

/-- HandleStateChange on kClosed: deliver "closed", then stop. -/
theorem HandleStateChange_closed (c : RTCDataChannel) :
    c.HandleStateChange DataState.kClosed =
      { c with
        delivered := c.delivered ++ [Notification.stateChange "closed"]
        stopped := true } := by
  unfold RTCDataChannel.HandleStateChange
  simp

/-- HandleStateChange on kOpen: deliver "open". -/
theorem HandleStateChange_open (c : RTCDataChannel) :
    c.HandleStateChange DataState.kOpen =
      { c with delivered := c.delivered ++ [Notification.stateChange "open"] } := by
  unfold RTCDataChannel.HandleStateChange
  simp

/-- HandleStateChange on kConnecting delivers nothing. -/
theorem HandleStateChange_connecting (c : RTCDataChannel) :
    c.HandleStateChange DataState.kConnecting = c := by
  unfold RTCDataChannel.HandleStateChange
  simp

/-- HandleStateChange on kClosing delivers nothing. -/
theorem HandleStateChange_closing (c : RTCDataChannel) :
    c.HandleStateChange DataState.kClosing = c := by
  unfold RTCDataChannel.HandleStateChange
  simp

/-- Send never mutates the channel: every branch returns the channel it
was called on. -/
theorem Send_channelAfter (c : RTCDataChannel) (p : SendPayload) (w : Bool) :
    (c.Send p w).channelAfter = c := by
  unfold RTCDataChannel.Send
  cases hj : c.jingle with
  | none => rfl
  | some j =>
    by_cases hs : j.state = DataState.kOpen
    · simp only [hs]
      cases p <;> simp
    · simp [hs]

/-- Close is a no-op once the binding is released. -/
theorem Close_of_released (c : RTCDataChannel) (h : c.jingle = none) :
    c.Close = c := by
  unfold RTCDataChannel.Close
  simp [h]

/-- Repeated Close on a released binding stays a no-op. -/
theorem closeN_of_released (c : RTCDataChannel) (h : c.jingle = none) :
    ∀ n : Nat, closeN n c = c := by
  intro n
  induction n with
  | zero => rfl
  | succ m ih =>
    show closeN m c.Close = c
    rw [Close_of_released c h]
    exact ih

/-- HandleStateChange touches only the delivery log and the stopped
flag, so it preserves cleaned-ness. -/
theorem HandleStateChange_cleaned (c : RTCDataChannel) (j : JingleDataChannel)
    (s : DataState) (h : cleanedWith c j) :
    cleanedWith (c.HandleStateChange s) j := by
  unfold RTCDataChannel.HandleStateChange
  dsimp only
  split_ifs <;> exact h

/-- HandleMessage touches only the delivery log, so it preserves
cleaned-ness. -/
theorem HandleMessage_cleaned (c : RTCDataChannel) (j : JingleDataChannel)
    (b : Bool) (d : List Nat) (h : cleanedWith c j) :
    cleanedWith (c.HandleMessage b d) j := h

/-- Dispatch preserves cleaned-ness when the dispatched callback
does. -/
theorem Dispatch_cleaned (c : RTCDataChannel) (j : JingleDataChannel)
    (f : RTCDataChannel → RTCDataChannel) (h : cleanedWith c j)
    (hf : ∀ ch, cleanedWith ch j → cleanedWith (f ch) j) :
    cleanedWith (c.Dispatch f) j := by
  unfold RTCDataChannel.Dispatch
  split_ifs
  · exact h
  · exact hf c h

/-- Processing any observer event preserves cleaned-ness. -/
theorem processEvent_cleaned (c : RTCDataChannel) (j : JingleDataChannel)
    (e : ChannelEvent) (h : cleanedWith c j) :
    cleanedWith (processEvent c e) j := by
  cases e with
  | stateChange s =>
    unfold processEvent
    dsimp only
    have h1 : (if s = DataState.kClosed then c.CleanupInternals else c) = c := by
      split_ifs
      · exact CleanupInternals_of_released c h.1
      · rfl
    rw [h1]
    exact Dispatch_cleaned c j _ h
      (fun ch hch => HandleStateChange_cleaned ch j s hch)
  | message b d =>
    unfold processEvent
    exact Dispatch_cleaned c j _ h
      (fun ch hch => HandleMessage_cleaned ch j b d hch)

/-- Applying any single operation preserves cleaned-ness: nothing can
reattach a released binding or overwrite the snapshot. -/
theorem applyOp_cleaned (c : RTCDataChannel) (j : JingleDataChannel)
    (op : ChannelOp) (h : cleanedWith c j) : cleanedWith (applyOp c op) j := by
  cases op with
  | closeOp => rw [applyOp, Close_of_released c h.1]; exact h
  | sendOp p w => rw [applyOp, Send_channelAfter]; exact h
  | cleanupOp => rw [applyOp, CleanupInternals_of_released c h.1]; exact h
  | peerClosedOp => rw [applyOp, OnPeerConnectionClosed_of_released c h.1]; exact h
  | eventOp e => rw [applyOp]; exact processEvent_cleaned c j e h

/-- Applying any operation sequence preserves cleaned-ness. -/
theorem applyOps_cleaned (j : JingleDataChannel) (ops : List ChannelOp) :
    ∀ c : RTCDataChannel, cleanedWith c j → cleanedWith (applyOps c ops) j := by
  induction ops with
  | nil => intro c h; exact h
  | cons op rest ih =>
    intro c h
    exact ih (applyOp c op) (applyOp_cleaned c j op h)

/-- On a cleaned channel every attribute accessor serves the snapshot,
and readyState reads closed. -/
theorem getters_of_cleaned (c : RTCDataChannel) (j : JingleDataChannel)
    (h : cleanedWith c j) :
    c.GetId = j.id ∧ c.GetLabel = j.label ∧ c.GetProtocol = j.protocol ∧
    c.GetOrdered = j.ordered ∧ c.GetNegotiated = j.negotiated ∧
    c.GetMaxRetransmits = j.maxRetransmits ∧
    c.GetMaxPacketLifeTime = j.maxRetransmitTime ∧
    c.GetBufferedAmount = j.buffered_amount ∧
    c.GetReadyState = DataState.kClosed := by
  obtain ⟨h0, h1, h2, h3, h4, h5, h6, h7, h8⟩ := h
  unfold RTCDataChannel.GetId RTCDataChannel.GetLabel
    RTCDataChannel.GetProtocol RTCDataChannel.GetOrdered
    RTCDataChannel.GetNegotiated RTCDataChannel.GetMaxRetransmits
    RTCDataChannel.GetMaxPacketLifeTime RTCDataChannel.GetBufferedAmount
    RTCDataChannel.GetReadyState
  rw [h0]
  exact ⟨h1, h2, h3, h4, h5, h6, h7, h8, rfl⟩

/-- OnStateChange observing the kClosed state snapshots the attributes
before releasing the binding, leaving the channel cleaned. -/
theorem OnStateChange_closed_cleaned (c : RTCDataChannel)
    (j : JingleDataChannel) (hj : c.jingle = some j)
    (hs : j.state = DataState.kClosed) :
    cleanedWith c.OnStateChange j := by
  unfold RTCDataChannel.OnStateChange
  rw [hj]
  dsimp only
  rw [hs]
  rw [if_pos rfl]
  exact Dispatch_cleaned _ j _ (CleanupInternals_cleaned c j hj)
    (fun ch hch => HandleStateChange_cleaned ch j DataState.kClosed hch)

/-- Observing a kClosing state change delivers nothing and changes
nothing in the binding. -/
theorem OnStateChange_closing_noop (c : RTCDataChannel)
    (j : JingleDataChannel) (hj : c.jingle = some j)
    (hs : j.state = DataState.kClosing) (hstop : c.stopped = false) :
    c.OnStateChange = c := by
  unfold RTCDataChannel.OnStateChange
  rw [hj]
  dsimp only
  rw [hs, if_neg (by decide), Dispatch_of_running _ _ hstop,
    HandleStateChange_closing]

/-- Observing the kClosed state change snapshots the attributes,
releases the binding, delivers one "closed" callback and stops the
loop. -/
theorem OnStateChange_closed_eq (c : RTCDataChannel)
    (j : JingleDataChannel) (hj : c.jingle = some j)
    (hs : j.state = DataState.kClosed) (hstop : c.stopped = false) :
    c.OnStateChange = { c with
      jingle := none
      cached_id := j.id
      cached_label := j.label
      cached_protocol := j.protocol
      cached_ordered := j.ordered
      cached_negotiated := j.negotiated
      cached_max_retransmits := j.maxRetransmits
      cached_max_packet_life_time := j.maxRetransmitTime
      cached_buffered_amount := j.buffered_amount
      stopped := true
      delivered := c.delivered ++ [Notification.stateChange "closed"] } := by
  have hcl : c.CleanupInternals = { c with
      jingle := none
      cached_id := j.id
      cached_label := j.label
      cached_protocol := j.protocol
      cached_ordered := j.ordered
      cached_negotiated := j.negotiated
      cached_max_retransmits := j.maxRetransmits
      cached_max_packet_life_time := j.maxRetransmitTime
      cached_buffered_amount := j.buffered_amount } := by
    unfold RTCDataChannel.CleanupInternals
    rw [hj]
  unfold RTCDataChannel.OnStateChange
  rw [hj]
  dsimp only
  rw [hs, if_pos rfl,
    Dispatch_of_running _ _ ((CleanupInternals_delivered_stopped c).2.trans hstop),
    HandleStateChange_closed, hcl]

/-- Full computation of Close from an open channel with a running
loop: the underlying channel walks Open, Closing, Closed; the kClosing
observation delivers nothing, the kClosed observation snapshots the
attributes, delivers exactly one "closed" callback and stops the
loop. -/
theorem Close_from_open (c : RTCDataChannel) (j : JingleDataChannel)
    (hj : c.jingle = some j) (hs : j.state = DataState.kOpen)
    (hstop : c.stopped = false) :
    c.Close = { c with
      jingle := none
      cached_id := j.id
      cached_label := j.label
      cached_protocol := j.protocol
      cached_ordered := j.ordered
      cached_negotiated := j.negotiated
      cached_max_retransmits := j.maxRetransmits
      cached_max_packet_life_time := j.maxRetransmitTime
      cached_buffered_amount := j.buffered_amount
      stopped := true
      delivered := c.delivered ++ [Notification.stateChange "closed"] } := by
  unfold RTCDataChannel.Close
  rw [hj]
  dsimp only
  rw [hs, if_neg (by decide)]
  rw [OnStateChange_closing_noop
    { c with jingle := some { j with state := DataState.kClosing } }
    { j with state := DataState.kClosing } rfl rfl hstop]
  dsimp only
  rw [OnStateChange_closed_eq
    { c with jingle := some { j with state := DataState.kClosed } }
    { j with state := DataState.kClosed } rfl rfl hstop]

/-! ## Claims -/

/-- C10: reading the priority attribute returns the constant string
"high" for every channel, in every state, independent of configuration:
GetPriority never inspects the channel. -/
theorem C10_priority_always_high (c : RTCDataChannel) :
    c.GetPriority = "high" ∧ (c.Close).GetPriority = "high" ∧
    (c.OnPeerConnectionClosed).GetPriority = "high" :=
  ⟨rfl, rfl, rfl⟩

/-- C7: on an Open channel, Send with a payload that is neither a
string nor a TypedArray, DataView or ArrayBuffer throws the
InvalidArgument type error (TypeError "Expected a Blob or ArrayBuffer")
and hands nothing to the transport, leaving the channel unchanged. -/
theorem C7_send_bad_type_rejected (c : RTCDataChannel) (j : JingleDataChannel)
    (w : Bool) (hj : c.jingle = some j) (hs : j.state = DataState.kOpen) :
    c.Send SendPayload.otherVal w =
      { threw := some typeErrorMsg, errorsCreated := [],
        transportWrites := [], channelAfter := c } := by
  unfold RTCDataChannel.Send
  simp [hj, hs]

/-- Witness for C7 at a concrete open channel. -/
theorem C7_send_bad_type_rejected_witness :
    (cSample DataState.kOpen).Send SendPayload.otherVal true =
      { threw := some typeErrorMsg, errorsCreated := [],
        transportWrites := [], channelAfter := cSample DataState.kOpen } :=
  C7_send_bad_type_rejected (cSample DataState.kOpen)
    (jSample DataState.kOpen) true rfl rfl

/-- C1 (code bug): Send while the channel is Connecting hands no bytes
to the transport, but it does not fail either - the InvalidStateError
is constructed (FIXME at line 181) and then dropped, and the caller
observes a plain undefined return with no exception. -/
theorem C1_send_connecting_does_not_fail :
    ((cSample DataState.kConnecting).Send (SendPayload.strVal [104, 105]) true).threw = none ∧
    ((cSample DataState.kConnecting).Send (SendPayload.strVal [104, 105]) true).transportWrites = [] ∧
    ((cSample DataState.kConnecting).Send (SendPayload.strVal [104, 105]) true).errorsCreated
      = [invalidStateMsg] := by
  decide

/-- C3 (code bug): a received text message whose bytes contain an
embedded NUL is truncated at that NUL on delivery (the C++ passes the
buffer to Napi::String::New with no length), so byte length and content
are not preserved; the binary path does preserve them, and the message
is delivered exactly once. -/
theorem C3_text_delivery_truncated :
    handleMessageValue false [104, 0, 105] = NapiValue.jsString [104] ∧
    handleMessageValue true [104, 0, 105] = NapiValue.arrayBuffer [104, 0, 105] ∧
    (processEvents (cSample DataState.kOpen)
        [ChannelEvent.message false [104, 0, 105]]).delivered
      = [Notification.message (NapiValue.jsString [104])] := by
  decide

/-- Counterexample to C4 as stated: on an Open channel whose transport
write reports failure (writeOk = false), Send raises no exception,
creates no error, and returns the channel unchanged - the failure is
not propagated to the caller. -/
theorem C4_counterexample_failure_swallowed :
    ((cSample DataState.kOpen).Send (SendPayload.strVal [120]) false).threw = none ∧
    ((cSample DataState.kOpen).Send (SendPayload.strVal [120]) false).errorsCreated = [] ∧
    ((cSample DataState.kOpen).Send (SendPayload.strVal [120]) false).channelAfter
      = cSample DataState.kOpen := by
  decide

/-- C4 amended: the boolean result of the underlying transport write is
discarded - the whole observable effect of Send is independent of it,
and the channel is never closed (nor otherwise changed) by Send. -/
theorem C4_write_result_discarded (c : RTCDataChannel) (p : SendPayload)
    (w : Bool) :
    c.Send p w = c.Send p true ∧ (c.Send p w).channelAfter = c :=
  ⟨rfl, Send_channelAfter c p w⟩

/-- Counterexample to C8 as stated: on an Open channel an empty binary
payload (an empty ArrayBuffer) is not rejected - it is handed to the
transport as an empty binary DataBuffer with no error. -/
theorem C8_counterexample_empty_binary_accepted :
    ((cSample DataState.kOpen).Send (SendPayload.arrayBufferVal []) true).threw = none ∧
    ((cSample DataState.kOpen).Send (SendPayload.arrayBufferVal []) true).errorsCreated = [] ∧
    ((cSample DataState.kOpen).Send (SendPayload.arrayBufferVal []) true).transportWrites
      = [(true, [])] := by
  decide

/-- C8 amended: Send applies no emptiness precondition at all - on an
Open channel an empty binary payload and an empty text payload are both
accepted and handed to the transport. -/
theorem C8_no_emptiness_check (c : RTCDataChannel) (j : JingleDataChannel)
    (w : Bool) (hj : c.jingle = some j) (hs : j.state = DataState.kOpen) :
    c.Send (SendPayload.arrayBufferVal []) w =
      { threw := none, errorsCreated := [],
        transportWrites := [(true, [])], channelAfter := c } ∧
    c.Send (SendPayload.strVal []) w =
      { threw := none, errorsCreated := [],
        transportWrites := [(false, [])], channelAfter := c } := by
  unfold RTCDataChannel.Send
  simp [hj, hs, viewBytes]

/-- Witness for the amended C8 at a concrete open channel. -/
theorem C8_no_emptiness_check_witness :
    (cSample DataState.kOpen).Send (SendPayload.arrayBufferVal []) true =
      { threw := none, errorsCreated := [],
        transportWrites := [(true, [])],
        channelAfter := cSample DataState.kOpen } ∧
    (cSample DataState.kOpen).Send (SendPayload.strVal []) true =
      { threw := none, errorsCreated := [],
        transportWrites := [(false, [])],
        channelAfter := cSample DataState.kOpen } :=
  C8_no_emptiness_check (cSample DataState.kOpen)
    (jSample DataState.kOpen) true rfl rfl

/-- C2: when OnStateChange observes the transition into kClosed it
snapshots id, label, protocol, ordered, negotiated, max retransmits,
max packet life time and buffered amount from the live channel before
releasing the binding, and every subsequent read of any of these
attributes - across any later sequence of operations - returns exactly
the snapshotted value. -/
theorem C2_snapshot_served_after_close (c : RTCDataChannel)
    (j : JingleDataChannel) (ops : List ChannelOp)
    (hj : c.jingle = some j) (hs : j.state = DataState.kClosed) :
    (applyOps c.OnStateChange ops).GetId = j.id ∧
    (applyOps c.OnStateChange ops).GetLabel = j.label ∧
    (applyOps c.OnStateChange ops).GetProtocol = j.protocol ∧
    (applyOps c.OnStateChange ops).GetOrdered = j.ordered ∧
    (applyOps c.OnStateChange ops).GetNegotiated = j.negotiated ∧
    (applyOps c.OnStateChange ops).GetMaxRetransmits = j.maxRetransmits ∧
    (applyOps c.OnStateChange ops).GetMaxPacketLifeTime = j.maxRetransmitTime ∧
    (applyOps c.OnStateChange ops).GetBufferedAmount = j.buffered_amount := by
  have H := getters_of_cleaned _ j
    (applyOps_cleaned j ops _ (OnStateChange_closed_cleaned c j hj hs))
  exact ⟨H.1, H.2.1, H.2.2.1, H.2.2.2.1, H.2.2.2.2.1, H.2.2.2.2.2.1,
    H.2.2.2.2.2.2.1, H.2.2.2.2.2.2.2.1⟩

/-- Witness for C2 at a concrete channel closing with the sample
attribute values, followed by a concrete operation sequence. -/
theorem C2_snapshot_served_after_close_witness :
    (applyOps (cSample DataState.kClosed).OnStateChange opsW).GetId
      = (jSample DataState.kClosed).id ∧
    (applyOps (cSample DataState.kClosed).OnStateChange opsW).GetLabel
      = (jSample DataState.kClosed).label ∧
    (applyOps (cSample DataState.kClosed).OnStateChange opsW).GetProtocol
      = (jSample DataState.kClosed).protocol ∧
    (applyOps (cSample DataState.kClosed).OnStateChange opsW).GetOrdered
      = (jSample DataState.kClosed).ordered ∧
    (applyOps (cSample DataState.kClosed).OnStateChange opsW).GetNegotiated
      = (jSample DataState.kClosed).negotiated ∧
    (applyOps (cSample DataState.kClosed).OnStateChange opsW).GetMaxRetransmits
      = (jSample DataState.kClosed).maxRetransmits ∧
    (applyOps (cSample DataState.kClosed).OnStateChange opsW).GetMaxPacketLifeTime
      = (jSample DataState.kClosed).maxRetransmitTime ∧
    (applyOps (cSample DataState.kClosed).OnStateChange opsW).GetBufferedAmount
      = (jSample DataState.kClosed).buffered_amount :=
  C2_snapshot_served_after_close (cSample DataState.kClosed)
    (jSample DataState.kClosed) opsW rfl rfl

/-- C9: tearing the owning peer connection down leaves the channel
reading kClosed with all attributes snapshotted from the live values;
the snapshot step is guarded against re-entry, so a second teardown -
or a teardown once the binding is already released - changes nothing. -/
theorem C9_teardown_snapshots_once (c : RTCDataChannel)
    (j : JingleDataChannel) (hj : c.jingle = some j) :
    (c.OnPeerConnectionClosed).GetReadyState = DataState.kClosed ∧
    (c.OnPeerConnectionClosed).GetId = j.id ∧
    (c.OnPeerConnectionClosed).GetLabel = j.label ∧
    (c.OnPeerConnectionClosed).GetProtocol = j.protocol ∧
    (c.OnPeerConnectionClosed).GetOrdered = j.ordered ∧
    (c.OnPeerConnectionClosed).GetNegotiated = j.negotiated ∧
    (c.OnPeerConnectionClosed).GetMaxRetransmits = j.maxRetransmits ∧
    (c.OnPeerConnectionClosed).GetMaxPacketLifeTime = j.maxRetransmitTime ∧
    (c.OnPeerConnectionClosed).GetBufferedAmount = j.buffered_amount ∧
    (c.OnPeerConnectionClosed).OnPeerConnectionClosed
      = c.OnPeerConnectionClosed ∧
    (∀ c2 : RTCDataChannel, c2.jingle = none →
      c2.OnPeerConnectionClosed = c2) := by
  have hcl := OnPeerConnectionClosed_cleaned c j hj
  have H := getters_of_cleaned _ j hcl
  exact ⟨H.2.2.2.2.2.2.2.2, H.1, H.2.1, H.2.2.1, H.2.2.2.1, H.2.2.2.2.1,
    H.2.2.2.2.2.1, H.2.2.2.2.2.2.1, H.2.2.2.2.2.2.2.1,
    OnPeerConnectionClosed_of_released _ hcl.1,
    fun c2 h2 => OnPeerConnectionClosed_of_released c2 h2⟩

/-- Witness for C9 at a concrete attached channel. -/
theorem C9_teardown_snapshots_once_witness :
    ((cSample DataState.kOpen).OnPeerConnectionClosed).GetReadyState
      = DataState.kClosed ∧
    ((cSample DataState.kOpen).OnPeerConnectionClosed).GetId
      = (jSample DataState.kOpen).id ∧
    ((cSample DataState.kOpen).OnPeerConnectionClosed).GetLabel
      = (jSample DataState.kOpen).label ∧
    ((cSample DataState.kOpen).OnPeerConnectionClosed).GetProtocol
      = (jSample DataState.kOpen).protocol ∧
    ((cSample DataState.kOpen).OnPeerConnectionClosed).GetOrdered
      = (jSample DataState.kOpen).ordered ∧
    ((cSample DataState.kOpen).OnPeerConnectionClosed).GetNegotiated
      = (jSample DataState.kOpen).negotiated ∧
    ((cSample DataState.kOpen).OnPeerConnectionClosed).GetMaxRetransmits
      = (jSample DataState.kOpen).maxRetransmits ∧
    ((cSample DataState.kOpen).OnPeerConnectionClosed).GetMaxPacketLifeTime
      = (jSample DataState.kOpen).maxRetransmitTime ∧
    ((cSample DataState.kOpen).OnPeerConnectionClosed).GetBufferedAmount
      = (jSample DataState.kOpen).buffered_amount ∧
    ((cSample DataState.kOpen).OnPeerConnectionClosed).OnPeerConnectionClosed
      = (cSample DataState.kOpen).OnPeerConnectionClosed ∧
    (∀ c2 : RTCDataChannel, c2.jingle = none →
      c2.OnPeerConnectionClosed = c2) :=
  C9_teardown_snapshots_once (cSample DataState.kOpen)
    (jSample DataState.kOpen) rfl

/-- C5: close is idempotent - from an open channel with a running
loop, one close produces exactly one StateChanged(Closed) notification,
any number n of closes (n greater or equal 1) leaves the channel in the
exact state one close leaves it in (so no further notification), and
once the binding is released a further close is a no-op changing no
observable state. -/
theorem C5_close_idempotent (c : RTCDataChannel) (j : JingleDataChannel)
    (hj : c.jingle = some j) (hs : j.state = DataState.kOpen)
    (hstop : c.stopped = false) :
    countClosed (c.Close).delivered = countClosed c.delivered + 1 ∧
    (∀ n : Nat, closeN (n + 1) c = c.Close) ∧
    (∀ c2 : RTCDataChannel, c2.jingle = none → c2.Close = c2) := by
  have hC := Close_from_open c j hj hs hstop
  refine ⟨?_, ?_, fun c2 h2 => Close_of_released c2 h2⟩
  · rw [hC]
    unfold countClosed
    dsimp only
    rw [List.countP_append]
    rfl
  · intro n
    show closeN n c.Close = c.Close
    apply closeN_of_released
    rw [hC]

/-- Witness for C5 at a concrete open channel with a running loop. -/
theorem C5_close_idempotent_witness :
    countClosed ((cSample DataState.kOpen).Close).delivered
      = countClosed (cSample DataState.kOpen).delivered + 1 ∧
    (∀ n : Nat, closeN (n + 1) (cSample DataState.kOpen)
      = (cSample DataState.kOpen).Close) ∧
    (∀ c2 : RTCDataChannel, c2.jingle = none → c2.Close = c2) :=
  C5_close_idempotent (cSample DataState.kOpen)
    (jSample DataState.kOpen) rfl rfl rfl

/-- Once the loop is stopped, processing an event delivers nothing and
the loop stays stopped. -/
theorem processEvent_of_stopped (c : RTCDataChannel) (e : ChannelEvent)
    (h : c.stopped = true) :
    (processEvent c e).delivered = c.delivered ∧
    (processEvent c e).stopped = true := by
  cases e with
  | stateChange s =>
    unfold processEvent
    dsimp only
    by_cases hc : s = DataState.kClosed
    · rw [if_pos hc,
        Dispatch_of_stopped _ _ ((CleanupInternals_delivered_stopped c).2.trans h)]
      exact ⟨(CleanupInternals_delivered_stopped c).1,
        (CleanupInternals_delivered_stopped c).2.trans h⟩
    · rw [if_neg hc, Dispatch_of_stopped _ _ h]
      exact ⟨rfl, h⟩
  | message b d =>
    unfold processEvent
    dsimp only
    rw [Dispatch_of_stopped _ _ h]
    exact ⟨rfl, h⟩

/-- Once the loop is stopped, no later event delivers anything. -/
theorem processEvents_of_stopped (es : List ChannelEvent) :
    ∀ c : RTCDataChannel, c.stopped = true →
    (processEvents c es).delivered = c.delivered := by
  induction es with
  | nil => intro c _; rfl
  | cons e rest ih =>
    intro c h
    have h1 := processEvent_of_stopped c e h
    calc (processEvents (processEvent c e) rest).delivered
        = (processEvent c e).delivered := ih _ h1.2
      _ = c.delivered := h1.1

/-- Refinement of the event pipeline against the spec-side delivery
order: with the loop running, processing a produced event sequence
extends the delivery log by exactly fifoDelivery of that sequence - one
notification per observable event, in production order, cut off after
the closed state change. -/
theorem processEvents_delivered (es : List ChannelEvent) :
    ∀ c : RTCDataChannel, c.stopped = false →
    (processEvents c es).delivered = c.delivered ++ fifoDelivery es := by
  induction es with
  | nil => intro c _; simp [processEvents, fifoDelivery]
  | cons e rest ih =>
    intro c h
    cases e with
    | stateChange s =>
      cases s with
      | kClosed =>
        have hds := CleanupInternals_delivered_stopped c
        have hpe : processEvent c (ChannelEvent.stateChange DataState.kClosed)
            = { c.CleanupInternals with
                delivered := (c.CleanupInternals).delivered
                  ++ [Notification.stateChange "closed"]
                stopped := true } := by
          unfold processEvent
          dsimp only
          rw [if_pos rfl, Dispatch_of_running _ _ (hds.2.trans h),
            HandleStateChange_closed]
        show (processEvents
          (processEvent c (ChannelEvent.stateChange DataState.kClosed))
          rest).delivered = _
        rw [hpe, processEvents_of_stopped rest _ rfl]
        dsimp only
        rw [hds.1]
        rfl
      | kOpen =>
        have hpe : processEvent c (ChannelEvent.stateChange DataState.kOpen)
            = { c with delivered := c.delivered
                ++ [Notification.stateChange "open"] } := by
          unfold processEvent
          dsimp only
          rw [if_neg (by decide), Dispatch_of_running _ _ h,
            HandleStateChange_open]
        show (processEvents
          (processEvent c (ChannelEvent.stateChange DataState.kOpen))
          rest).delivered = _
        rw [hpe, ih { c with delivered := c.delivered
          ++ [Notification.stateChange "open"] } h]
        dsimp only
        rw [List.append_assoc]
        rfl
      | kConnecting =>
        have hpe : processEvent c (ChannelEvent.stateChange DataState.kConnecting)
            = c := by
          unfold processEvent
          dsimp only
          rw [if_neg (by decide), Dispatch_of_running _ _ h,
            HandleStateChange_connecting]
        show (processEvents
          (processEvent c (ChannelEvent.stateChange DataState.kConnecting))
          rest).delivered = _
        rw [hpe, ih _ h]
        rfl
      | kClosing =>
        have hpe : processEvent c (ChannelEvent.stateChange DataState.kClosing)
            = c := by
          unfold processEvent
          dsimp only
          rw [if_neg (by decide), Dispatch_of_running _ _ h,
            HandleStateChange_closing]
        show (processEvents
          (processEvent c (ChannelEvent.stateChange DataState.kClosing))
          rest).delivered = _
        rw [hpe, ih _ h]
        rfl
    | message b d =>
      have hpe : processEvent c (ChannelEvent.message b d)
          = { c with delivered := c.delivered
              ++ [Notification.message (handleMessageValue b d)] } := by
        unfold processEvent
        dsimp only
        rw [Dispatch_of_running _ _ h]
        rfl
      show (processEvents (processEvent c (ChannelEvent.message b d))
        rest).delivered = _
      rw [hpe, ih { c with delivered := c.delivered
        ++ [Notification.message (handleMessageValue b d)] } h]
      dsimp only
      rw [List.append_assoc]
      rfl

/-- In the spec-side delivery order, nothing ever follows the "closed"
state change. -/
theorem fifoDelivery_closed_last (es : List ChannelEvent) :
    ∀ l1 l2 : List Notification,
    fifoDelivery es = l1 ++ Notification.stateChange "closed" :: l2 →
    l2 = [] := by
  induction es with
  | nil =>
    intro l1 l2 h
    rw [fifoDelivery] at h
    exact absurd h.symm (List.append_ne_nil_of_right_ne_nil l1 (by simp))
  | cons e rest ih =>
    intro l1 l2 h
    cases e with
    | stateChange s =>
      cases s with
      | kClosed =>
        rw [fifoDelivery] at h
        cases l1 with
        | nil =>
          rw [List.nil_append] at h
          injection h with h1 h2
          exact h2.symm
        | cons a t =>
          rw [List.cons_append] at h
          injection h with h1 h2
          exact absurd h2.symm (List.append_ne_nil_of_right_ne_nil t (by simp))
      | kOpen =>
        rw [fifoDelivery] at h
        cases l1 with
        | nil =>
          rw [List.nil_append] at h
          injection h with h1 h2
          injection h1 with h3
          exact absurd h3 (by decide)
        | cons a t =>
          rw [List.cons_append] at h
          injection h with h1 h2
          exact ih t l2 h2
      | kConnecting => exact ih l1 l2 h
      | kClosing => exact ih l1 l2 h
    | message b d =>
      rw [fifoDelivery] at h
      cases l1 with
      | nil =>
        rw [List.nil_append] at h
        injection h with h1 h2
        exact absurd h1 (by simp)
      | cons a t =>
        rw [List.cons_append] at h
        injection h with h1 h2
        exact ih t l2 h2

/-- C6: with a fresh running channel, the notifications delivered for a
produced event sequence are exactly fifoDelivery of that sequence -
FIFO in production order - and a StateChanged(Closed) notification is
never followed by any further notification. -/
theorem C6_fifo_and_closed_last (c : RTCDataChannel)
    (es : List ChannelEvent) (hstop : c.stopped = false)
    (hdel : c.delivered = []) :
    (processEvents c es).delivered = fifoDelivery es ∧
    (∀ l1 l2 : List Notification,
      (processEvents c es).delivered
        = l1 ++ Notification.stateChange "closed" :: l2 →
      l2 = []) := by
  have hd := processEvents_delivered es c hstop
  rw [hdel, List.nil_append] at hd
  exact ⟨hd, fun l1 l2 h =>
    fifoDelivery_closed_last es l1 l2 (hd.symm.trans h)⟩

/-- Witness for C6 at a concrete fresh channel and a concrete event
sequence ending in kClosed. -/
theorem C6_fifo_and_closed_last_witness :
    (processEvents (cSample DataState.kConnecting) esW).delivered
      = fifoDelivery esW ∧
    (∀ l1 l2 : List Notification,
      (processEvents (cSample DataState.kConnecting) esW).delivered
        = l1 ++ Notification.stateChange "closed" :: l2 →
      l2 = []) :=
  C6_fifo_and_closed_last (cSample DataState.kConnecting) esW rfl rfl

end NodeWebrtc
